import Mathlib

/-!
Shallow embedding of `slack_guests_wo_exp.js` (script
`notifySlackAboutGuestsWithoutExpiration` together with its helpers
`encodeQueryData` and `postToSlack`).

Modelling conventions:
* A JavaScript object field that may be `undefined` is an `Option`;
  JS truthiness of a string field is `none`/`""` ↦ false.
* Each `Logger.log` call site is one abstract `LogEvent` constructor
  carrying the datum the site logs (consecutive log calls at a single
  return site are collapsed into the one event for that site); the
  exact formatted log strings are not modelled.
* A `UrlFetchApp.fetch` of `admin.users.list` consumes the next element
  of a list of `FetchOutcome`s: either a parsed response or a thrown
  error (which also models a `JSON.parse` failure).  Running past the
  end of the supplied list is modelled as a thrown fetch.
* The source hardcodes the placeholder configuration `teamId = ""` and
  `channel = ""` with instructions to replace them; they are parameters
  of the model, as is the script-property token.
-/

/-- One user record of an `admin.users.list` response page.  Fields the
script reads; absent fields are `none`. -/
structure SlackUser where
  is_deleted : Bool := false
  is_restricted : Bool := false
  is_ultra_restricted : Bool := false
  email : Option String := none
  expiration_ts : Option Int := none
  date_created : Option Int := none
  full_name : Option String := none
  id : Option String := none
deriving Repr, DecidableEq

/-- A parsed `admin.users.list` response.  `users = none` models a
missing or non-array `users` field; `next_cursor = none` models a
missing `response_metadata` or `next_cursor`. -/
structure ApiResponse where
  ok : Bool := true
  error : Option String := none
  users : Option (List SlackUser) := none
  next_cursor : Option String := none
deriving Repr, DecidableEq

/-- One fetch of `admin.users.list`: either a parsed response or a
thrown error (network failure or unparsable body). -/
inductive FetchOutcome where
  | threw : FetchOutcome
  | resp : ApiResponse → FetchOutcome
deriving Repr, DecidableEq

/-- The record pushed onto `guestsWithoutExpiration` for a matching user. -/
structure Guest where
  email : Option String
  creation_time : String
  name : Option String
  id : Option String
deriving Repr, DecidableEq

/-- One `Logger.log` call site of the script, carrying its salient datum. -/
inductive LogEvent where
  | missingToken : LogEvent
  | missingTeamId : LogEvent
  | apiErrorLog : Option String → LogEvent
  | badUsersShape : LogEvent
  | batchSize : Nat → LogEvent
  | processingUser : Option String → LogEvent
  | skipDeleted : Option String → LogEvent
  | skipNotGuest : Option String → LogEvent
  | skipDomain : Option String → LogEvent
  | dateError : Option String → LogEvent
  | noCreationDate : Option String → LogEvent
  | guestsCount : Nat → LogEvent
  | noGuestsFound : LogEvent
  | caughtError : LogEvent
  | postErrorLog : Option String → LogEvent
  | postSuccess : String → LogEvent
  | caughtPostError : LogEvent
deriving Repr, DecidableEq

/-- The form payload built for one `admin.users.list` request; the
`cursor` key is present only when it was added (`if (cursor) payload.cursor = cursor`). -/
structure Payload where
  token : String
  team_id : String
  limit : Nat
  cursor : Option String
deriving Repr, DecidableEq

/-- One `chat.postMessage` request issued by `postToSlack`. -/
structure PostCall where
  channel : String
  text : String
  token : String
deriving Repr, DecidableEq

/-- The outcome of the single `chat.postMessage` fetch inside `postToSlack`:
an ok response, a non-ok response with an error field, or a throw. -/
inductive PostResponse where
  | ok : PostResponse
  | err : Option String → PostResponse
  | threw : PostResponse
deriving Repr, DecidableEq

/-- Everything observable about one run of the script: the
`admin.users.list` payloads sent, the `chat.postMessage` calls made,
and the log, in order. -/
structure ScriptResult where
  sent : List Payload
  posts : List PostCall
  logs : List LogEvent
deriving Repr, DecidableEq

/-- JS truthiness of a possibly-absent string (`none` and `""` are falsy). -/
def strTruthy : Option String → Bool
  | none => false
  | some s => s != ""

/-- Template-literal rendering of a possibly-undefined string field
(JS renders `undefined`). -/
def jsShow : Option String → String
  | none => "undefined"
  | some s => s

/-- The JavaScript `String.prototype.endsWith`, modelled on the strings'
character lists. -/
def jsEndsWith (s suffix : String) : Bool :=
  suffix.data.isSuffixOf s.data

/-- The skip test `user.email && user.email.endsWith("@domain.com")`. -/
def emailExcluded : Option String → Bool
  | none => false
  | some s => (s != "") && jsEndsWith s "@domain.com"

/-- The test `user.expiration_ts == 0 || user.expiration_ts === undefined`. -/
def noExpiration (e : Option Int) : Bool :=
  (e == some 0) || e.isNone

/-- JS truthiness of `user.date_created` (`undefined` and `0` are falsy). -/
def dateTruthy : Option Int → Bool
  | none => false
  | some d => d != 0

/-- Whether `new Date(d * 1000).toISOString()` succeeds: JS Date throws a
RangeError beyond ±8.64e15 milliseconds from the epoch. -/
def dateInRange (d : Int) : Bool :=
  (d * 1000).natAbs ≤ 8640000000000000

/-- Abstract model of the JavaScript `new Date(d * 1000).toISOString()`
text for an in-range epoch-seconds value `d`: rendered as an injective
placeholder, since no claim depends on the concrete ISO-8601 notation of
the timestamp. -/
def isoOfEpoch (d : Int) : String :=
  "ISO8601:" ++ toString d

/-- The value of the local `creationTime` variable after the
`if (user.date_created) { try ... catch ... } else ...` block: it stays
`'Unknown'` when the field is falsy or the Date conversion throws. -/
def creationTimeOf (dc : Option Int) : String :=
  if dateTruthy dc then
    if dateInRange (dc.getD 0) then isoOfEpoch (dc.getD 0) else "Unknown"
  else "Unknown"

/-- The log lines produced while computing `creationTime` for one user. -/
def creationLogs (id : Option String) (dc : Option Int) : List LogEvent :=
  if dateTruthy dc then
    if dateInRange (dc.getD 0) then [] else [LogEvent.dateError id]
  else [LogEvent.noCreationDate id]

/-- The record pushed onto `guestsWithoutExpiration` for user `u`. -/
def guestRecordOf (u : SlackUser) : Guest :=
  { email := u.email
    creation_time := creationTimeOf u.date_created
    name := u.full_name
    id := u.id }

/-- The body of the `users.forEach` callback for one user: the log lines
it writes and the guest record it pushes, if any.  Mirrors the chain of
early returns in the source. -/
def processUser (u : SlackUser) : List LogEvent × Option Guest :=
  let pLog := LogEvent.processingUser u.id
  if u.is_deleted then
    ([pLog, LogEvent.skipDeleted u.id], none)
  else if !u.is_restricted && !u.is_ultra_restricted then
    ([pLog, LogEvent.skipNotGuest u.id], none)
  else if emailExcluded u.email then
    ([pLog, LogEvent.skipDomain u.id], none)
  else if noExpiration u.expiration_ts then
    (pLog :: creationLogs u.id u.date_created, some (guestRecordOf u))
  else
    ([pLog], none)

/-- The `users.forEach` loop over one page, threading the accumulated
`guestsWithoutExpiration` array and collecting the per-user log lines. -/
def processPage (users : List SlackUser) (acc : List Guest) :
    List LogEvent × List Guest :=
  users.foldl
    (fun st u =>
      let r := processUser u
      (st.1 ++ r.1, st.2 ++ r.2.toList))
    ([], acc)

/-- How the `do … while (cursor)` loop ended. -/
inductive LoopOutcome where
  | fetchThrew : LoopOutcome
  | apiError : Option String → LoopOutcome
  | badUsers : LoopOutcome
  | finished : List Guest → LoopOutcome
deriving Repr, DecidableEq

/-- The observables of the pagination loop: payloads sent, log lines
written inside the loop, and how it ended. -/
structure LoopResult where
  sent : List Payload
  logs : List LogEvent
  outcome : LoopOutcome
deriving Repr, DecidableEq

/-- The payload object built at the top of one loop iteration:
`{token, team_id, limit}`, plus `cursor` when the current cursor is truthy. -/
def mkPayload (token teamId : String) (limit : Nat) (cursor : String) : Payload :=
  { token := token
    team_id := teamId
    limit := limit
    cursor := if cursor ≠ "" then some cursor else none }

/-- The `do { … } while (cursor)` loop, one recursive call per iteration,
consuming one fetch outcome per page request. -/
def runLoop (token teamId : String) (limit : Nat) :
    String → List FetchOutcome → List Guest → LoopResult
  | cursor, [], _ =>
      ⟨[mkPayload token teamId limit cursor], [], LoopOutcome.fetchThrew⟩
  | cursor, FetchOutcome.threw :: _, _ =>
      ⟨[mkPayload token teamId limit cursor], [], LoopOutcome.fetchThrew⟩
  | cursor, FetchOutcome.resp r :: rest, acc =>
      let p := mkPayload token teamId limit cursor
      if !r.ok then
        ⟨[p], [LogEvent.apiErrorLog r.error], LoopOutcome.apiError r.error⟩
      else
        let cursor2 := r.next_cursor.getD ""
        match r.users with
        | none => ⟨[p], [LogEvent.badUsersShape], LoopOutcome.badUsers⟩
        | some users =>
            let pr := processPage users acc
            let logs1 := LogEvent.batchSize users.length :: pr.1
            if cursor2 = "" then
              ⟨[p], logs1, LoopOutcome.finished pr.2⟩
            else
              let res := runLoop token teamId limit cursor2 rest pr.2
              ⟨p :: res.sent, logs1 ++ res.logs, res.outcome⟩

/-- The message posted when guests without expiration were found. -/
def formatGuest (g : Guest) : String :=
  "*Email*: " ++ jsShow g.email ++ "\n*Name*: " ++ jsShow g.name ++
  "\n*Creation Time*: " ++ g.creation_time ++ "\n*User ID*: " ++ jsShow g.id

/-- The full message text: header plus the guest entries joined by blank
lines (`.map(g => …).join("\n\n")`). -/
def formatMessage (gs : List Guest) : String :=
  "Active guests without expiration:\n" ++
    String.intercalate "\n\n" (gs.map formatGuest)

/-- The `postToSlack` helper: it issues exactly one `chat.postMessage`
request and logs the outcome, catching its own errors. -/
def postToSlack (channel message token : String) (resp : PostResponse) :
    PostCall × List LogEvent :=
  ({ channel := channel, text := message, token := token },
   match resp with
   | PostResponse.ok => [LogEvent.postSuccess channel]
   | PostResponse.err e => [LogEvent.postErrorLog e]
   | PostResponse.threw => [LogEvent.caughtPostError])

/-- The `notifySlackAboutGuestsWithoutExpiration` entry point.  `token`
is the script property, `teamId` and `channel` the configuration values
the source asks the operator to fill in, `fetches` the successive
outcomes of the `admin.users.list` requests, `postResp` the outcome of
the `chat.postMessage` request should one be made.  The surrounding
`try { … } catch (e) { Logger.log(…) }` makes every run return a result. -/
def notifySlackAboutGuestsWithoutExpiration (token : Option String)
    (teamId channel : String) (fetches : List FetchOutcome)
    (postResp : PostResponse) : ScriptResult :=
  if !strTruthy token then
    ⟨[], [], [LogEvent.missingToken]⟩
  else if teamId = "" then
    ⟨[], [], [LogEvent.missingTeamId]⟩
  else
    let lr := runLoop (token.getD "") teamId 100 "" fetches []
    match lr.outcome with
    | LoopOutcome.fetchThrew => ⟨lr.sent, [], lr.logs ++ [LogEvent.caughtError]⟩
    | LoopOutcome.apiError _ => ⟨lr.sent, [], lr.logs⟩
    | LoopOutcome.badUsers => ⟨lr.sent, [], lr.logs⟩
    | LoopOutcome.finished guests =>
        let cLog := LogEvent.guestsCount guests.length
        if guests.length > 0 then
          let pr := postToSlack channel (formatMessage guests) (token.getD "") postResp
          ⟨lr.sent, [pr.1], lr.logs ++ [cLog] ++ pr.2⟩
        else
          ⟨lr.sent, [], lr.logs ++ [cLog, LogEvent.noGuestsFound]⟩

/-- Hexadecimal digit character (uppercase), as `encodeURIComponent` uses. -/
def hexDigitChar (n : Nat) : Char :=
  if n < 10 then Char.ofNat (48 + n) else Char.ofNat (55 + n)

/-- Characters `encodeURIComponent` leaves unescaped. -/
def uriUnreserved (c : Char) : Bool :=
  c.isAlphanum || c = '-' || c = '_' || c = '.' || c = '!' || c = '~' ||
    c = '*' || c = Char.ofNat 39 || c = '(' || c = ')'

/-- Percent-encoding of one byte. -/
def percentByte (b : UInt8) : String :=
  String.mk ['%', hexDigitChar (b.toNat / 16), hexDigitChar (b.toNat % 16)]

/-- The JavaScript `encodeURIComponent`: unreserved characters kept,
everything else percent-encoded as UTF-8 bytes. -/
def encodeURIComponent (s : String) : String :=
  String.join (s.data.map fun c =>
    if uriUnreserved c then String.singleton c
    else String.join (((String.singleton c).toUTF8).toList.map percentByte))

/-- The `encodeQueryData` helper, over the payload's entries in insertion
order; an entry whose value is `undefined` (`none`) is skipped. -/
def encodeQueryData (data : List (String × Option String)) : String :=
  String.intercalate "&"
    (data.filterMap fun kv =>
      kv.2.map fun v => encodeURIComponent kv.1 ++ "=" ++ encodeURIComponent v)

/-- The entries of a request payload in insertion order, with `none` for
a key that was never set (the `cursor` key when the cursor was falsy is
simply absent, not `undefined`). -/
def Payload.entries (p : Payload) : List (String × Option String) :=
  [("token", some p.token), ("team_id", some p.team_id),
   ("limit", some (toString p.limit))] ++
    (match p.cursor with
     | some c => [("cursor", some c)]
     | none => [])

/-- The matches a page's `forEach` appends, in within-page order. -/
def pageMatches (us : List SlackUser) : List Guest :=
  us.filterMap fun u => (processUser u).2

/-- The log lines one successfully processed page writes: the batch-size
line, then the per-user lines in order. -/
def pageLogs (us : List SlackUser) : List LogEvent :=
  LogEvent.batchSize us.length :: (us.map fun u => (processUser u).1).flatten

/-- The users of a fetched page (empty for a throw or a missing array). -/
def usersOfF : FetchOutcome → List SlackUser
  | FetchOutcome.threw => []
  | FetchOutcome.resp r => r.users.getD []

/-- The value the script assigns to `cursor` from a fetched response. -/
def cursorOfF : FetchOutcome → String
  | FetchOutcome.threw => ""
  | FetchOutcome.resp r => r.next_cursor.getD ""

/-- A fetch outcome that lets the loop process the page and continue: an
ok response with a users array and a truthy continuation cursor. -/
def okCont : FetchOutcome → Bool
  | FetchOutcome.threw => false
  | FetchOutcome.resp r => r.ok && r.users.isSome && (r.next_cursor.getD "" != "")

/-- The request payloads the loop builds for a run of pages, starting
from a given cursor. -/
def payloadsFor (tk tm : String) (l : Nat) : String → List FetchOutcome → List Payload
  | _, [] => []
  | c, f :: fs => mkPayload tk tm l c :: payloadsFor tk tm l (cursorOfF f) fs

/-- The cursor in hand after consuming a run of pages. -/
def lastCursor : String → List FetchOutcome → String
  | c, [] => c
  | _, f :: fs => lastCursor (cursorOfF f) fs

/-- The concatenation, in page order, of each page's matches. -/
def guestsOfPages (fs : List FetchOutcome) : List Guest :=
  (fs.map fun f => pageMatches (usersOfF f)).flatten

/-- The concatenation, in page order, of each page's log lines. -/
def logsOfPages (fs : List FetchOutcome) : List LogEvent :=
  (fs.map fun f => pageLogs (usersOfF f)).flatten

/-- A guest user with no expiration timestamp, used in concrete checks. -/
def sampleUser : SlackUser :=
  { is_restricted := true, email := some "guest@example.com",
    expiration_ts := none, date_created := some 100,
    full_name := some "Guest One", id := some "U1" }

/-- A second guest, with a zero expiration timestamp and no creation date. -/
def sampleUser2 : SlackUser :=
  { is_ultra_restricted := true, email := some "second@example.com",
    expiration_ts := some 0, date_created := none,
    full_name := some "Guest Two", id := some "U2" }

/-- A final page: ok, one user, empty continuation cursor. -/
def samplePage : ApiResponse :=
  { users := some [sampleUser] }

/-- A continuing page: ok, one user, non-empty continuation cursor. -/
def sampleContPage : ApiResponse :=
  { users := some [sampleUser2], next_cursor := some "cursor1" }

/-- An ok page carrying no users and no continuation cursor. -/
def sampleEmptyPage : ApiResponse :=
  { users := some ([] : List SlackUser) }

/-- A non-ok response. -/
def sampleErrPage : ApiResponse :=
  { ok := false, error := some "not_allowed" }

lemma processPage_foldl (us : List SlackUser) :
    ∀ (l : List LogEvent) (acc : List Guest),
    List.foldl
      (fun st u =>
        let r := processUser u
        (st.1 ++ r.1, st.2 ++ r.2.toList))
      (l, acc) us =
      (l ++ (us.map fun u => (processUser u).1).flatten,
       acc ++ us.filterMap fun u => (processUser u).2) := by
  induction us with
  | nil => intro l acc; simp
  | cons u us ih =>
      intro l acc
      simp only [List.foldl_cons, List.map_cons, List.flatten, List.filterMap_cons]
      rw [ih]
      cases h : (processUser u).2 <;> simp [h, List.append_assoc]

lemma processPage_eq (us : List SlackUser) (acc : List Guest) :
    processPage us acc =
      ((us.map fun u => (processUser u).1).flatten, acc ++ pageMatches us) := by
  simpa [processPage, pageMatches] using processPage_foldl us [] acc

lemma runLoop_err (tk tm : String) (l : Nat) (cursor : String)
    (rest : List FetchOutcome) (acc : List Guest) (r : ApiResponse)
    (hok : r.ok = false) :
    runLoop tk tm l cursor (FetchOutcome.resp r :: rest) acc =
      ⟨[mkPayload tk tm l cursor], [LogEvent.apiErrorLog r.error],
        LoopOutcome.apiError r.error⟩ := by
  simp [runLoop, hok]

lemma runLoop_finish (tk tm : String) (l : Nat) (cursor : String)
    (rest : List FetchOutcome) (acc : List Guest) (q : ApiResponse)
    (us : List SlackUser)
    (hok : q.ok = true) (hus : q.users = some us)
    (hc : q.next_cursor.getD "" = "") :
    runLoop tk tm l cursor (FetchOutcome.resp q :: rest) acc =
      ⟨[mkPayload tk tm l cursor], pageLogs us,
        LoopOutcome.finished (acc ++ pageMatches us)⟩ := by
  simp [runLoop, hok, hus, hc, processPage_eq, pageLogs]

lemma runLoop_cont (tk tm : String) (l : Nat) (cursor : String)
    (rest : List FetchOutcome) (acc : List Guest) (q : ApiResponse)
    (us : List SlackUser)
    (hok : q.ok = true) (hus : q.users = some us)
    (hc : q.next_cursor.getD "" ≠ "") :
    runLoop tk tm l cursor (FetchOutcome.resp q :: rest) acc =
      ⟨mkPayload tk tm l cursor ::
          (runLoop tk tm l (q.next_cursor.getD "") rest (acc ++ pageMatches us)).sent,
        pageLogs us ++
          (runLoop tk tm l (q.next_cursor.getD "") rest (acc ++ pageMatches us)).logs,
        (runLoop tk tm l (q.next_cursor.getD "") rest (acc ++ pageMatches us)).outcome⟩ := by
  simp [runLoop, hok, hus, hc, processPage_eq, pageLogs]

lemma runLoop_good_append (tk tm : String) (l : Nat) (ps : List FetchOutcome) :
    ∀ (cursor : String) (rest : List FetchOutcome) (acc : List Guest),
    (∀ f ∈ ps, okCont f = true) →
    runLoop tk tm l cursor (ps ++ rest) acc =
      ⟨payloadsFor tk tm l cursor ps ++
          (runLoop tk tm l (lastCursor cursor ps) rest (acc ++ guestsOfPages ps)).sent,
        logsOfPages ps ++
          (runLoop tk tm l (lastCursor cursor ps) rest (acc ++ guestsOfPages ps)).logs,
        (runLoop tk tm l (lastCursor cursor ps) rest (acc ++ guestsOfPages ps)).outcome⟩ := by
  induction ps with
  | nil =>
      intro cursor rest acc _
      simp [payloadsFor, lastCursor, guestsOfPages, logsOfPages]
  | cons f fs ih =>
      intro cursor rest acc h
      have hf := h f (List.mem_cons_self f fs)
      cases f with
      | threw => simp [okCont] at hf
      | resp r =>
          have hf3 : (r.ok = true ∧ r.users.isSome = true) ∧
              r.next_cursor.getD "" ≠ "" := by
            simpa [okCont, Bool.and_eq_true] using hf
          obtain ⟨⟨h1, h2⟩, h3⟩ := hf3
          obtain ⟨us, hus⟩ := Option.isSome_iff_exists.mp h2
          rw [List.cons_append,
            runLoop_cont tk tm l cursor (fs ++ rest) acc r us h1 hus h3,
            ih (r.next_cursor.getD "") rest (acc ++ pageMatches us)
              (fun g hg => h g (List.mem_cons_of_mem (FetchOutcome.resp r) hg))]
          simp [payloadsFor, lastCursor, guestsOfPages, logsOfPages, usersOfF,
            cursorOfF, pageLogs, hus, List.append_assoc]

lemma payloadsFor_length (tk tm : String) (l : Nat) (ps : List FetchOutcome) :
    ∀ c, (payloadsFor tk tm l c ps).length = ps.length := by
  induction ps with
  | nil => intro c; rfl
  | cons f fs ih => intro c; simp [payloadsFor, ih]

lemma payloadsFor_append (tk tm : String) (l : Nat) (ps qs : List FetchOutcome) :
    ∀ c, payloadsFor tk tm l c (ps ++ qs) =
      payloadsFor tk tm l c ps ++ payloadsFor tk tm l (lastCursor c ps) qs := by
  induction ps with
  | nil => intro c; simp [payloadsFor, lastCursor]
  | cons f fs ih => intro c; simp [payloadsFor, lastCursor, ih]

lemma payloadsFor_dropLast (tk tm : String) (l : Nat) (ps : List FetchOutcome) :
    ∀ c f, payloadsFor tk tm l c (f :: ps) =
      mkPayload tk tm l c ::
        ((f :: ps).dropLast.map fun g => mkPayload tk tm l (cursorOfF g)) := by
  induction ps with
  | nil => intro c f; simp [payloadsFor]
  | cons g gs ih =>
      intro c f
      have h1 : payloadsFor tk tm l c (f :: g :: gs) =
          mkPayload tk tm l c :: payloadsFor tk tm l (cursorOfF f) (g :: gs) := rfl
      rw [h1, ih (cursorOfF f) g, List.dropLast_cons₂]
      simp

lemma guestsOfPages_append (ps qs : List FetchOutcome) :
    guestsOfPages (ps ++ qs) = guestsOfPages ps ++ guestsOfPages qs := by
  simp [guestsOfPages]

lemma logsOfPages_append (ps qs : List FetchOutcome) :
    logsOfPages (ps ++ qs) = logsOfPages ps ++ logsOfPages qs := by
  simp [logsOfPages]

lemma notify_good (token tm ch : String) (ps rest : List FetchOutcome)
    (q : ApiResponse) (us : List SlackUser) (presp : PostResponse)
    (htok : token ≠ "") (htm : tm ≠ "")
    (hps : ∀ f ∈ ps, okCont f = true)
    (hok : q.ok = true) (hus : q.users = some us)
    (hc : q.next_cursor.getD "" = "") :
    notifySlackAboutGuestsWithoutExpiration (some token) tm ch
        (ps ++ FetchOutcome.resp q :: rest) presp =
      (if (guestsOfPages ps ++ pageMatches us).length > 0 then
        ⟨payloadsFor token tm 100 "" ps ++ [mkPayload token tm 100 (lastCursor "" ps)],
         [(postToSlack ch (formatMessage (guestsOfPages ps ++ pageMatches us))
             token presp).1],
         (logsOfPages ps ++ pageLogs us) ++
           [LogEvent.guestsCount (guestsOfPages ps ++ pageMatches us).length] ++
           (postToSlack ch (formatMessage (guestsOfPages ps ++ pageMatches us))
             token presp).2⟩
      else
        ⟨payloadsFor token tm 100 "" ps ++ [mkPayload token tm 100 (lastCursor "" ps)],
         [],
         (logsOfPages ps ++ pageLogs us) ++
           [LogEvent.guestsCount (guestsOfPages ps ++ pageMatches us).length,
            LogEvent.noGuestsFound]⟩) := by
  have ht : strTruthy (some token) = true := by simp [strTruthy, htok]
  rw [notifySlackAboutGuestsWithoutExpiration]
  simp only [Option.getD_some]
  rw [runLoop_good_append token tm 100 ps "" (FetchOutcome.resp q :: rest) [] hps]
  simp only [List.nil_append]
  rw [runLoop_finish token tm 100 (lastCursor "" ps) rest (guestsOfPages ps) q us hok hus hc]
  simp only [ht, Bool.not_true, Bool.false_eq_true, if_false, if_neg htm,
    List.nil_append]

lemma noExpiration_iff (e : Option Int) :
    noExpiration e = true ↔ (e = none ∨ e = some 0) := by
  cases e <;> simp [noExpiration]

lemma processUser_isSome_iff (u : SlackUser) :
    ((processUser u).2).isSome = true ↔
      (u.is_deleted = false ∧
       (u.is_restricted = true ∨ u.is_ultra_restricted = true) ∧
       emailExcluded u.email = false ∧
       (u.expiration_ts = none ∨ u.expiration_ts = some 0)) := by
  rcases u with ⟨d, r, ur, em, ex, dc, fn, uid⟩
  cases d <;> cases r <;> cases ur <;>
    by_cases he : emailExcluded em = true <;>
      by_cases hx : noExpiration ex = true <;>
        simp [processUser, he, hx, ← noExpiration_iff]

lemma skipNotGuest_not_mem_creationLogs (a b : Option String) (dc : Option Int) :
    LogEvent.skipNotGuest a ∉ creationLogs b dc := by
  unfold creationLogs
  split_ifs <;> simp

lemma runLoop_badUsers (tk tm : String) (l : Nat) (cursor : String)
    (rest : List FetchOutcome) (acc : List Guest) (r : ApiResponse)
    (hok : r.ok = true) (hus : r.users = none) :
    runLoop tk tm l cursor (FetchOutcome.resp r :: rest) acc =
      ⟨[mkPayload tk tm l cursor], [LogEvent.badUsersShape],
        LoopOutcome.badUsers⟩ := by
  simp [runLoop, hok, hus]

lemma payloadsFor_concat (tk tm : String) (l : Nat) (ps : List FetchOutcome)
    (f : FetchOutcome) :
    ∀ c, payloadsFor tk tm l c (ps ++ [f]) =
      mkPayload tk tm l c :: (ps.map fun g => mkPayload tk tm l (cursorOfF g)) := by
  induction ps with
  | nil => intro c; simp [payloadsFor]
  | cons g gs ih => intro c; simp [payloadsFor, ih (cursorOfF g)]

lemma okCont_cursorOfF_ne (f : FetchOutcome) (h : okCont f = true) :
    cursorOfF f ≠ "" := by
  cases f with
  | threw => simp [okCont] at h
  | resp r =>
      have h3 : (r.ok = true ∧ r.users.isSome = true) ∧
          r.next_cursor.getD "" ≠ "" := by
        simpa [okCont, Bool.and_eq_true] using h
      simpa [cursorOfF] using h3.2

lemma mkPayload_cursor_blank (tk tm : String) (l : Nat) :
    (mkPayload tk tm l "").cursor = none := by
  simp [mkPayload]

lemma mkPayload_cursor_of_ne (tk tm : String) (l : Nat) (c : String)
    (h : c ≠ "") : (mkPayload tk tm l c).cursor = some c := by
  simp [mkPayload, h]

lemma encodeQueryData_skip_none (pre post : List (String × Option String))
    (k : String) :
    encodeQueryData (pre ++ (k, none) :: post) = encodeQueryData (pre ++ post) := by
  simp [encodeQueryData, List.filterMap_append, List.filterMap_cons]

lemma runLoop_apiError_mem (tk tm : String) (l : Nat) (fs : List FetchOutcome) :
    ∀ (cursor : String) (acc : List Guest) (e : Option String),
    (runLoop tk tm l cursor fs acc).outcome = LoopOutcome.apiError e →
    LogEvent.apiErrorLog e ∈ (runLoop tk tm l cursor fs acc).logs := by
  induction fs with
  | nil => intro cursor acc e h; simp [runLoop] at h
  | cons f rest ih =>
      intro cursor acc e h
      cases f with
      | threw => simp [runLoop] at h
      | resp r =>
          by_cases hok : r.ok = true
          · cases husr : r.users with
            | none =>
                rw [runLoop_badUsers tk tm l cursor rest acc r hok husr] at h
                simp at h
            | some us =>
                by_cases hcur : r.next_cursor.getD "" = ""
                · rw [runLoop_finish tk tm l cursor rest acc r us hok husr hcur] at h
                  simp at h
                · rw [runLoop_cont tk tm l cursor rest acc r us hok husr hcur] at h ⊢
                  simp only at h
                  exact List.mem_append_right _ (ih _ _ _ h)
          · have hok' : r.ok = false := by simpa using hok
            rw [runLoop_err tk tm l cursor rest acc r hok'] at h ⊢
            simp only [LoopOutcome.apiError.injEq] at h
            simp [h]

lemma runLoop_badUsers_mem (tk tm : String) (l : Nat) (fs : List FetchOutcome) :
    ∀ (cursor : String) (acc : List Guest),
    (runLoop tk tm l cursor fs acc).outcome = LoopOutcome.badUsers →
    LogEvent.badUsersShape ∈ (runLoop tk tm l cursor fs acc).logs := by
  induction fs with
  | nil => intro cursor acc h; simp [runLoop] at h
  | cons f rest ih =>
      intro cursor acc h
      cases f with
      | threw => simp [runLoop] at h
      | resp r =>
          by_cases hok : r.ok = true
          · cases husr : r.users with
            | none =>
                rw [runLoop_badUsers tk tm l cursor rest acc r hok husr]
                simp
            | some us =>
                by_cases hcur : r.next_cursor.getD "" = ""
                · rw [runLoop_finish tk tm l cursor rest acc r us hok husr hcur] at h
                  simp at h
                · rw [runLoop_cont tk tm l cursor rest acc r us hok husr hcur] at h ⊢
                  simp only at h
                  exact List.mem_append_right _ (ih _ _ h)
          · have hok' : r.ok = false := by simpa using hok
            rw [runLoop_err tk tm l cursor rest acc r hok'] at h
            simp at h

/-- C2: a fetched user record is accumulated into the report exactly when
it passes all the filter predicates: not deleted, a guest (restricted or
ultra-restricted), email not in the excluded domain, and missing an
expiration (absent or zero `expiration_ts`); a user failing any one
predicate is skipped. -/
theorem C2_filter_predicates (u : SlackUser) :
    ((processUser u).2).isSome = true ↔
      (u.is_deleted = false ∧
       (u.is_restricted = true ∨ u.is_ultra_restricted = true) ∧
       emailExcluded u.email = false ∧
       (u.expiration_ts = none ∨ u.expiration_ts = some 0)) :=
  processUser_isSome_iff u

/-- C4: for a user that reaches the expiration check (not deleted, a
guest, not in the excluded domain), the notifier classifies the user as
having no expiration set exactly when `expiration_ts` is absent or zero. -/
theorem C4_expiration_classification (u : SlackUser)
    (hd : u.is_deleted = false)
    (hg : u.is_restricted = true ∨ u.is_ultra_restricted = true)
    (he : emailExcluded u.email = false) :
    ((processUser u).2).isSome = true ↔
      (u.expiration_ts = none ∨ u.expiration_ts = some 0) := by
  rw [processUser_isSome_iff]
  tauto

theorem C4_witness :
    ((processUser sampleUser).2).isSome = true ↔
      (sampleUser.expiration_ts = none ∨ sampleUser.expiration_ts = some 0) :=
  C4_expiration_classification sampleUser rfl (Or.inl rfl) (by decide)

/-- C5: for a non-deleted user, the notifier treats the user as a guest
(does not skip it at the guest check) exactly when the record has the
restricted or the ultra-restricted flag set. -/
theorem C5_guest_classification (u : SlackUser) (hd : u.is_deleted = false) :
    (LogEvent.skipNotGuest u.id ∉ (processUser u).1) ↔
      (u.is_restricted = true ∨ u.is_ultra_restricted = true) := by
  rcases u with ⟨d, r, ur, em, ex, dc, fn, uid⟩
  simp only at hd
  subst hd
  cases r <;> cases ur <;>
    simp [processUser, skipNotGuest_not_mem_creationLogs] <;>
      split_ifs <;> simp [skipNotGuest_not_mem_creationLogs]

theorem C5_witness :
    (LogEvent.skipNotGuest sampleUser.id ∉ (processUser sampleUser).1) ↔
      (sampleUser.is_restricted = true ∨
        sampleUser.is_ultra_restricted = true) :=
  C5_guest_classification sampleUser rfl

/-- C1: for a run over pages that all succeed, ending in a page with an
empty continuation cursor, in which `N > 0` guest records lack an
expiration timestamp, the script posts exactly one message (one
`postToSlack` call), and that message joins the entries of all `N`
records. -/
theorem C1_one_message_lists_all (token tm ch : String)
    (ps rest : List FetchOutcome) (q : ApiResponse) (us : List SlackUser)
    (presp : PostResponse) (N : Nat)
    (htok : token ≠ "") (htm : tm ≠ "")
    (hps : ∀ f ∈ ps, okCont f = true)
    (hok : q.ok = true) (hus : q.users = some us)
    (hc : q.next_cursor.getD "" = "")
    (hN : (guestsOfPages (ps ++ [FetchOutcome.resp q])).length = N)
    (hpos : 0 < N) :
    (notifySlackAboutGuestsWithoutExpiration (some token) tm ch
        (ps ++ FetchOutcome.resp q :: rest) presp).posts =
      [{ channel := ch,
         text := "Active guests without expiration:\n" ++
           String.intercalate "\n\n"
             ((guestsOfPages (ps ++ [FetchOutcome.resp q])).map formatGuest),
         token := token }] ∧
    ((guestsOfPages (ps ++ [FetchOutcome.resp q])).map formatGuest).length =
      N := by
  have hg : guestsOfPages (ps ++ [FetchOutcome.resp q]) =
      guestsOfPages ps ++ pageMatches us := by
    simp [guestsOfPages_append, guestsOfPages, usersOfF, hus]
  rw [hg] at hN
  have hlen : (guestsOfPages ps ++ pageMatches us).length > 0 := by omega
  rw [notify_good token tm ch ps rest q us presp htok htm hps hok hus hc,
    if_pos hlen]
  refine ⟨?_, ?_⟩
  · rw [hg]
    rfl
  · rw [hg]
    simpa using hN

theorem C1_witness :
    (notifySlackAboutGuestsWithoutExpiration (some "tok") "T" "CH"
        ([] ++ FetchOutcome.resp samplePage :: []) PostResponse.ok).posts =
      [{ channel := "CH",
         text := "Active guests without expiration:\n" ++
           String.intercalate "\n\n"
             ((guestsOfPages ([] ++ [FetchOutcome.resp samplePage])).map
               formatGuest),
         token := "tok" }] ∧
    ((guestsOfPages ([] ++ [FetchOutcome.resp samplePage])).map
      formatGuest).length = 1 :=
  C1_one_message_lists_all "tok" "T" "CH" [] [] samplePage [sampleUser]
    PostResponse.ok 1 (by decide) (by decide) (by simp) rfl rfl rfl
    (by decide) (by decide)

/-- C3: when an `admin.users.list` page comes back non-ok after any run
of successful pages, the script stops: no request beyond that page is
sent, whatever follows in the response sequence, and no message is
posted (any accumulated matches are discarded). -/
theorem C3_api_error_aborts (token tm ch : String) (ps rest : List FetchOutcome)
    (r : ApiResponse) (presp : PostResponse)
    (htok : token ≠ "") (htm : tm ≠ "")
    (hps : ∀ f ∈ ps, okCont f = true) (hr : r.ok = false) :
    (notifySlackAboutGuestsWithoutExpiration (some token) tm ch
        (ps ++ FetchOutcome.resp r :: rest) presp).posts = [] ∧
    (notifySlackAboutGuestsWithoutExpiration (some token) tm ch
        (ps ++ FetchOutcome.resp r :: rest) presp).sent.length =
      ps.length + 1 := by
  have ht : strTruthy (some token) = true := by simp [strTruthy, htok]
  rw [notifySlackAboutGuestsWithoutExpiration]
  simp only [Option.getD_some]
  rw [runLoop_good_append token tm 100 ps "" (FetchOutcome.resp r :: rest) [] hps]
  simp only [List.nil_append]
  rw [runLoop_err token tm 100 (lastCursor "" ps) rest (guestsOfPages ps) r hr]
  simp [ht, htm, payloadsFor_length]

theorem C3_witness :
    (notifySlackAboutGuestsWithoutExpiration (some "tok") "T" "CH"
        ([] ++ FetchOutcome.resp sampleErrPage ::
          [FetchOutcome.resp samplePage]) PostResponse.ok).posts = [] ∧
    (notifySlackAboutGuestsWithoutExpiration (some "tok") "T" "CH"
        ([] ++ FetchOutcome.resp sampleErrPage ::
          [FetchOutcome.resp samplePage]) PostResponse.ok).sent.length =
      List.length ([] : List FetchOutcome) + 1 :=
  C3_api_error_aborts "tok" "T" "CH" [] [FetchOutcome.resp samplePage]
    sampleErrPage PostResponse.ok (by decide) (by decide) (by simp) rfl

/-- C6: for any finite run of successful pages ending in a page whose
continuation cursor is empty or absent, the pagination loop terminates
in the `finished` outcome with the accumulated matches of every page; it
sends exactly one request per processed page (nothing after the
terminating page is fetched) and writes each page's log lines exactly
once, in page order. -/
theorem C6_pagination_terminates (token tm : String)
    (ps rest : List FetchOutcome) (q : ApiResponse) (us : List SlackUser)
    (hps : ∀ f ∈ ps, okCont f = true)
    (hok : q.ok = true) (hus : q.users = some us)
    (hc : q.next_cursor.getD "" = "") :
    (runLoop token tm 100 "" (ps ++ FetchOutcome.resp q :: rest) []).outcome =
      LoopOutcome.finished (guestsOfPages (ps ++ [FetchOutcome.resp q])) ∧
    (runLoop token tm 100 "" (ps ++ FetchOutcome.resp q :: rest) []).sent.length =
      ps.length + 1 ∧
    (runLoop token tm 100 "" (ps ++ FetchOutcome.resp q :: rest) []).logs =
      logsOfPages (ps ++ [FetchOutcome.resp q]) := by
  rw [runLoop_good_append token tm 100 ps "" (FetchOutcome.resp q :: rest) [] hps]
  simp only [List.nil_append]
  rw [runLoop_finish token tm 100 (lastCursor "" ps) rest (guestsOfPages ps)
    q us hok hus hc]
  refine ⟨?_, ?_, ?_⟩
  · simp [guestsOfPages_append, guestsOfPages, usersOfF, hus]
  · simp [payloadsFor_length]
  · simp [logsOfPages_append, logsOfPages, usersOfF, hus]

theorem C6_witness :
    (runLoop "tok" "T" 100 ""
        ([FetchOutcome.resp sampleContPage] ++
          FetchOutcome.resp samplePage :: []) []).outcome =
      LoopOutcome.finished
        (guestsOfPages ([FetchOutcome.resp sampleContPage] ++
          [FetchOutcome.resp samplePage])) ∧
    (runLoop "tok" "T" 100 ""
        ([FetchOutcome.resp sampleContPage] ++
          FetchOutcome.resp samplePage :: []) []).sent.length =
      [FetchOutcome.resp sampleContPage].length + 1 ∧
    (runLoop "tok" "T" 100 ""
        ([FetchOutcome.resp sampleContPage] ++
          FetchOutcome.resp samplePage :: []) []).logs =
      logsOfPages ([FetchOutcome.resp sampleContPage] ++
        [FetchOutcome.resp samplePage]) :=
  C6_pagination_terminates "tok" "T" [FetchOutcome.resp sampleContPage] []
    samplePage [sampleUser] (by decide) rfl rfl rfl

/-- C8: when a completed run accumulated no guests without expiration,
the script posts nothing: `postToSlack` is never called and the run only
appends the count and `No active guests` log lines. -/
theorem C8_no_guests_no_post (token tm ch : String) (fs : List FetchOutcome)
    (presp : PostResponse) (htok : token ≠ "") (htm : tm ≠ "")
    (hfin : (runLoop token tm 100 "" fs []).outcome =
      LoopOutcome.finished []) :
    (notifySlackAboutGuestsWithoutExpiration (some token) tm ch fs
      presp).posts = [] ∧
    (notifySlackAboutGuestsWithoutExpiration (some token) tm ch fs
      presp).logs =
      (runLoop token tm 100 "" fs []).logs ++
        [LogEvent.guestsCount 0, LogEvent.noGuestsFound] := by
  have ht : strTruthy (some token) = true := by simp [strTruthy, htok]
  rw [notifySlackAboutGuestsWithoutExpiration]
  simp only [Option.getD_some]
  simp [ht, htm, hfin]

theorem C8_witness :
    (notifySlackAboutGuestsWithoutExpiration (some "tok") "T" "CH"
        [FetchOutcome.resp sampleEmptyPage] PostResponse.ok).posts = [] ∧
    (notifySlackAboutGuestsWithoutExpiration (some "tok") "T" "CH"
        [FetchOutcome.resp sampleEmptyPage] PostResponse.ok).logs =
      (runLoop "tok" "T" 100 "" [FetchOutcome.resp sampleEmptyPage] []).logs ++
        [LogEvent.guestsCount 0, LogEvent.noGuestsFound] :=
  C8_no_guests_no_post "tok" "T" "CH" [FetchOutcome.resp sampleEmptyPage]
    PostResponse.ok (by decide) (by decide) (by decide)

/-- C9: the accumulated list of guests equals the concatenation, in page
order, of each page's filtered matches in within-page order, and the
posted message joins the guests' entries in exactly that order. -/
theorem C9_page_order_preserved (token tm ch : String)
    (ps rest : List FetchOutcome) (q : ApiResponse) (us : List SlackUser)
    (presp : PostResponse)
    (htok : token ≠ "") (htm : tm ≠ "")
    (hps : ∀ f ∈ ps, okCont f = true)
    (hok : q.ok = true) (hus : q.users = some us)
    (hc : q.next_cursor.getD "" = "") :
    (runLoop token tm 100 "" (ps ++ FetchOutcome.resp q :: rest) []).outcome =
      LoopOutcome.finished
        (((ps ++ [FetchOutcome.resp q]).map fun f =>
          (usersOfF f).filterMap fun u => (processUser u).2).flatten) ∧
    (guestsOfPages (ps ++ [FetchOutcome.resp q]) ≠ [] →
      ((notifySlackAboutGuestsWithoutExpiration (some token) tm ch
          (ps ++ FetchOutcome.resp q :: rest) presp).posts.map
        fun pc => pc.text) =
        ["Active guests without expiration:\n" ++
          String.intercalate "\n\n"
            ((guestsOfPages (ps ++ [FetchOutcome.resp q])).map formatGuest)]) := by
  have hg : guestsOfPages (ps ++ [FetchOutcome.resp q]) =
      guestsOfPages ps ++ pageMatches us := by
    simp [guestsOfPages_append, guestsOfPages, usersOfF, hus]
  constructor
  · rw [runLoop_good_append token tm 100 ps "" (FetchOutcome.resp q :: rest)
      [] hps]
    simp only [List.nil_append]
    rw [runLoop_finish token tm 100 (lastCursor "" ps) rest (guestsOfPages ps)
      q us hok hus hc]
    have heq : ((ps ++ [FetchOutcome.resp q]).map fun f =>
        (usersOfF f).filterMap fun u => (processUser u).2).flatten =
        guestsOfPages (ps ++ [FetchOutcome.resp q]) := rfl
    rw [heq, hg]
  · intro hne
    rw [hg] at hne
    have hlen : (guestsOfPages ps ++ pageMatches us).length > 0 :=
      List.length_pos.mpr hne
    rw [notify_good token tm ch ps rest q us presp htok htm hps hok hus hc,
      if_pos hlen, hg]
    rfl

theorem C9_witness :
    (runLoop "tok" "T" 100 ""
        ([FetchOutcome.resp sampleContPage] ++
          FetchOutcome.resp samplePage :: []) []).outcome =
      LoopOutcome.finished
        ((([FetchOutcome.resp sampleContPage] ++
            [FetchOutcome.resp samplePage]).map fun f =>
          (usersOfF f).filterMap fun u => (processUser u).2).flatten) ∧
    ((notifySlackAboutGuestsWithoutExpiration (some "tok") "T" "CH"
        ([FetchOutcome.resp sampleContPage] ++
          FetchOutcome.resp samplePage :: []) PostResponse.ok).posts.map
      fun pc => pc.text) =
      ["Active guests without expiration:\n" ++
        String.intercalate "\n\n"
          ((guestsOfPages ([FetchOutcome.resp sampleContPage] ++
            [FetchOutcome.resp samplePage])).map formatGuest)] :=
  ⟨(C9_page_order_preserved "tok" "T" "CH" [FetchOutcome.resp sampleContPage]
      [] samplePage [sampleUser] PostResponse.ok (by decide) (by decide)
      (by decide) rfl rfl rfl).1,
   (C9_page_order_preserved "tok" "T" "CH" [FetchOutcome.resp sampleContPage]
      [] samplePage [sampleUser] PostResponse.ok (by decide) (by decide)
      (by decide) rfl rfl rfl).2 (by decide)⟩

/-- C10: the first request's payload carries no cursor field; each later
request's payload carries the cursor field with exactly the previous
response's non-empty `next_cursor`; and `encodeQueryData` omits every
key whose value is undefined from the form body. -/
theorem C10_cursor_payloads_encoding (token tm ch : String)
    (ps rest : List FetchOutcome) (q : ApiResponse) (us : List SlackUser)
    (presp : PostResponse)
    (htok : token ≠ "") (htm : tm ≠ "")
    (hps : ∀ f ∈ ps, okCont f = true)
    (hok : q.ok = true) (hus : q.users = some us)
    (hc : q.next_cursor.getD "" = "") :
    (notifySlackAboutGuestsWithoutExpiration (some token) tm ch
        (ps ++ FetchOutcome.resp q :: rest) presp).sent =
      mkPayload token tm 100 "" ::
        (ps.map fun f => mkPayload token tm 100 (cursorOfF f)) ∧
    (mkPayload token tm 100 "").cursor = none ∧
    (∀ f ∈ ps, cursorOfF f ≠ "" ∧
      (mkPayload token tm 100 (cursorOfF f)).cursor = some (cursorOfF f)) ∧
    (∀ (pre post : List (String × Option String)) (k : String),
      encodeQueryData (pre ++ (k, none) :: post) =
        encodeQueryData (pre ++ post)) := by
  refine ⟨?_, mkPayload_cursor_blank token tm 100, ?_, ?_⟩
  · have hsent : (notifySlackAboutGuestsWithoutExpiration (some token) tm ch
        (ps ++ FetchOutcome.resp q :: rest) presp).sent =
        payloadsFor token tm 100 "" ps ++
          [mkPayload token tm 100 (lastCursor "" ps)] := by
      rw [notify_good token tm ch ps rest q us presp htok htm hps hok hus hc]
      split <;> rfl
    have h1 := payloadsFor_append token tm 100 ps [FetchOutcome.resp q] ""
    have h3 : payloadsFor token tm 100 (lastCursor "" ps)
        [FetchOutcome.resp q] =
        [mkPayload token tm 100 (lastCursor "" ps)] := rfl
    rw [h3] at h1
    rw [hsent, ← h1, payloadsFor_concat token tm 100 ps (FetchOutcome.resp q) ""]
  · intro f hf
    exact ⟨okCont_cursorOfF_ne f (hps f hf),
      mkPayload_cursor_of_ne token tm 100 _ (okCont_cursorOfF_ne f (hps f hf))⟩
  · intro pre post k
    exact encodeQueryData_skip_none pre post k

theorem C10_witness :
    (notifySlackAboutGuestsWithoutExpiration (some "tok") "T" "CH"
        ([FetchOutcome.resp sampleContPage] ++
          FetchOutcome.resp samplePage :: []) PostResponse.ok).sent =
      mkPayload "tok" "T" 100 "" ::
        ([FetchOutcome.resp sampleContPage].map fun f =>
          mkPayload "tok" "T" 100 (cursorOfF f)) ∧
    (mkPayload "tok" "T" 100 "").cursor = none ∧
    (∀ f ∈ [FetchOutcome.resp sampleContPage], cursorOfF f ≠ "" ∧
      (mkPayload "tok" "T" 100 (cursorOfF f)).cursor = some (cursorOfF f)) ∧
    (∀ (pre post : List (String × Option String)) (k : String),
      encodeQueryData (pre ++ (k, none) :: post) =
        encodeQueryData (pre ++ post)) :=
  C10_cursor_payloads_encoding "tok" "T" "CH"
    [FetchOutcome.resp sampleContPage] [] samplePage [sampleUser]
    PostResponse.ok (by decide) (by decide) (by decide) rfl rfl rfl

/-- C7: every error arising in a run is caught inside the script and
recorded in the log, and the entry point always returns a result (it is
a total function of the response sequence, so no exception escapes): a
thrown fetch or parse ends in the `caughtError` log line, a non-ok list
response in its `apiErrorLog` line, a malformed users field in the
`badUsersShape` line, and a throw inside `postToSlack` in the
`caughtPostError` line. -/
theorem C7_errors_caught_logged (token : Option String) (tm ch : String)
    (fs : List FetchOutcome) (presp : PostResponse) :
    (strTruthy token = true → tm ≠ "" →
      (runLoop (token.getD "") tm 100 "" fs []).outcome =
        LoopOutcome.fetchThrew →
      LogEvent.caughtError ∈
        (notifySlackAboutGuestsWithoutExpiration token tm ch fs presp).logs) ∧
    (∀ e, strTruthy token = true → tm ≠ "" →
      (runLoop (token.getD "") tm 100 "" fs []).outcome =
        LoopOutcome.apiError e →
      LogEvent.apiErrorLog e ∈
        (notifySlackAboutGuestsWithoutExpiration token tm ch fs presp).logs) ∧
    (strTruthy token = true → tm ≠ "" →
      (runLoop (token.getD "") tm 100 "" fs []).outcome =
        LoopOutcome.badUsers →
      LogEvent.badUsersShape ∈
        (notifySlackAboutGuestsWithoutExpiration token tm ch fs presp).logs) ∧
    (presp = PostResponse.threw →
      (notifySlackAboutGuestsWithoutExpiration token tm ch fs presp).posts ≠
        [] →
      LogEvent.caughtPostError ∈
        (notifySlackAboutGuestsWithoutExpiration token tm ch fs presp).logs) := by
  refine ⟨?_, ?_, ?_, ?_⟩
  · intro ht htm hout
    simp [notifySlackAboutGuestsWithoutExpiration, ht, htm, hout]
  · intro e ht htm hout
    have hmem := runLoop_apiError_mem (token.getD "") tm 100 fs "" [] e hout
    simp [notifySlackAboutGuestsWithoutExpiration, ht, htm, hout, hmem]
  · intro ht htm hout
    have hmem := runLoop_badUsers_mem (token.getD "") tm 100 fs "" [] hout
    simp [notifySlackAboutGuestsWithoutExpiration, ht, htm, hout, hmem]
  · intro hp hposts
    by_cases ht : strTruthy token = true
    · by_cases htm : tm = ""
      · simp [notifySlackAboutGuestsWithoutExpiration, ht, htm] at hposts
      · cases hout : (runLoop (token.getD "") tm 100 "" fs []).outcome with
        | fetchThrew =>
            simp [notifySlackAboutGuestsWithoutExpiration, ht, htm, hout]
              at hposts
        | apiError e =>
            simp [notifySlackAboutGuestsWithoutExpiration, ht, htm, hout]
              at hposts
        | badUsers =>
            simp [notifySlackAboutGuestsWithoutExpiration, ht, htm, hout]
              at hposts
        | finished gs =>
            by_cases hlen : gs.length > 0
            · subst hp
              simp [notifySlackAboutGuestsWithoutExpiration, ht, htm, hout,
                hlen, postToSlack]
            · simp [notifySlackAboutGuestsWithoutExpiration, ht, htm, hout,
                hlen] at hposts
    · have ht' : strTruthy token = false := by simpa using ht
      simp [notifySlackAboutGuestsWithoutExpiration, ht'] at hposts

theorem C7_witness :
    LogEvent.caughtError ∈
      (notifySlackAboutGuestsWithoutExpiration (some "tok") "T" "CH"
        [FetchOutcome.threw] PostResponse.ok).logs :=
  (C7_errors_caught_logged (some "tok") "T" "CH" [FetchOutcome.threw]
      PostResponse.ok).1 (by decide) (by decide) (by decide)
